import Mathlib

/-!
Verification of the doom-remote-input bridge (`src/forwarder.c`) and the
key-event encoder client (`src/unnamed/part_000`) against their
natural-language specification.

The C programs are shallowly embedded: the serial-line configuration logic
becomes a pure function on a `Termios` record plus explicit success flags for
the `tcgetattr`/`tcsetattr` system calls; each forwarding thread's loop becomes
a recursive function over a finite trace of I/O events (one event per loop
iteration, carrying the results of the read and write system calls of that
iteration); the encoder client's loop likewise.  Machine integers are modelled
as `Nat`/`Int`; the 32-bit `tcflag_t` bit operations use `Nat.land`/`Nat.lor`
with one's complement taken inside 32 bits.
-/

namespace Forwarder

/-! ### termios constants (Linux asm-generic/termbits.h values) -/

def PARENB  : Nat := 0x100
def CSTOPB  : Nat := 0x40
def CSIZE   : Nat := 0x30
def CS8     : Nat := 0x30
def CRTSCTS : Nat := 0x80000000
def CREAD   : Nat := 0x80
def CLOCAL  : Nat := 0x800

def ICANON  : Nat := 0x2
def ECHO    : Nat := 0x8
def ECHOE   : Nat := 0x10
def ECHONL  : Nat := 0x40
def ISIG    : Nat := 0x1

def IXON    : Nat := 0x400
def IXOFF   : Nat := 0x1000
def IXANY   : Nat := 0x800
def IGNBRK  : Nat := 0x1
def BRKINT  : Nat := 0x2
def PARMRK  : Nat := 0x8
def ISTRIP  : Nat := 0x20
def INLCR   : Nat := 0x40
def IGNCR   : Nat := 0x80
def ICRNL   : Nat := 0x100

def OPOST   : Nat := 0x1
def ONLCR   : Nat := 0x4

/-- Indices into the `c_cc` control-character array (Linux). -/
def VTIME : Nat := 5

def VMIN : Nat := 6

/-- `NCCS`: length of the `c_cc` array. -/
def NCCS : Nat := 19

/-- Bitwise complement inside a 32-bit `tcflag_t`, i.e. C's `~m`. -/
def compl32 (m : Nat) : Nat := (2 ^ 32 - 1) ^^^ m

/-! ### speed_t codes (Linux `Bxxx` constants, octal in the header) -/

def B50      : Nat := 0o1
def B75      : Nat := 0o2
def B110     : Nat := 0o3
def B134     : Nat := 0o4
def B150     : Nat := 0o5
def B200     : Nat := 0o6
def B300     : Nat := 0o7
def B600     : Nat := 0o10
def B1200    : Nat := 0o11
def B1800    : Nat := 0o12
def B2400    : Nat := 0o13
def B4800    : Nat := 0o14
def B9600    : Nat := 0o15
def B19200   : Nat := 0o16
def B38400   : Nat := 0o17
def B57600   : Nat := 0o10001
def B115200  : Nat := 0o10002
def B230400  : Nat := 0o10003
def B460800  : Nat := 0o10004
def B500000  : Nat := 0o10005
def B576000  : Nat := 0o10006
def B921600  : Nat := 0o10007
def B1000000 : Nat := 0o10010
def B1152000 : Nat := 0o10011
def B1500000 : Nat := 0o10012
def B2000000 : Nat := 0o10013
def B2500000 : Nat := 0o10014
def B3000000 : Nat := 0o10015
def B3500000 : Nat := 0o10016
def B4000000 : Nat := 0o10017

/-- `(speed_t)-1`, the sentinel `baudrate_to_speed_t` returns for an
unsupported rate (`speed_t` is a 32-bit unsigned integer). -/
def speed_t_err : Nat := 2 ^ 32 - 1

/-- `baudrate_to_speed_t` from `src/forwarder.c`: the switch mapping an `int`
baud rate to a `speed_t` code, defaulting to `(speed_t)-1` (after printing an
error message to stderr, which this pure model omits). -/
def baudrate_to_speed_t (baudrate : Int) : Nat :=
  match baudrate with
  | 50 => B50
  | 75 => B75
  | 110 => B110
  | 134 => B134
  | 150 => B150
  | 200 => B200
  | 300 => B300
  | 600 => B600
  | 1200 => B1200
  | 1800 => B1800
  | 2400 => B2400
  | 4800 => B4800
  | 9600 => B9600
  | 19200 => B19200
  | 38400 => B38400
  | 57600 => B57600
  | 115200 => B115200
  | 230400 => B230400
  | 460800 => B460800
  | 500000 => B500000
  | 576000 => B576000
  | 921600 => B921600
  | 1000000 => B1000000
  | 1152000 => B1152000
  | 1500000 => B1500000
  | 2000000 => B2000000
  | 2500000 => B2500000
  | 3000000 => B3000000
  | 3500000 => B3500000
  | 4000000 => B4000000
  | _ => speed_t_err

/-- The supported baud rates: exactly the cases of the switch in
`baudrate_to_speed_t`. -/
def supported_bauds : List Int :=
  [50, 75, 110, 134, 150, 200, 300, 600, 1200, 1800, 2400, 4800, 9600,
   19200, 38400, 57600, 115200, 230400, 460800, 500000, 576000, 921600,
   1000000, 1152000, 1500000, 2000000, 2500000, 3000000, 3500000, 4000000]

/-- `struct termios`, restricted to the fields `configure_serial_port`
touches.  `c_cc` is the control-character array (length `NCCS`); the two
speed fields model where `cfsetospeed`/`cfsetispeed` record the line speed. -/
structure Termios where
  c_iflag : Nat
  c_oflag : Nat
  c_cflag : Nat
  c_lflag : Nat
  c_cc : List Nat
  c_ispeed : Nat
  c_ospeed : Nat
deriving DecidableEq, Repr

/-- The valid `speed_t` codes, i.e. the values `cfsetospeed` accepts. -/
def validSpeedCodes : List Nat :=
  [B50, B75, B110, B134, B150, B200, B300, B600, B1200, B1800, B2400, B4800,
   B9600, B19200, B38400, B57600, B115200, B230400, B460800, B500000, B576000,
   B921600, B1000000, B1152000, B1500000, B2000000, B2500000, B3000000,
   B3500000, B4000000]

/-- `cfsetospeed(&tty, speed)`: records the output speed in the local struct
when `speed` is a valid code; the C library rejects an invalid code and leaves
the struct unchanged (its `-1` return value is ignored by
`configure_serial_port`). -/
def cfsetospeed (tty : Termios) (speed : Nat) : Termios :=
  if speed ∈ validSpeedCodes then { tty with c_ospeed := speed } else tty

/-- `cfsetispeed(&tty, speed)`: likewise for the input speed. -/
def cfsetispeed (tty : Termios) (speed : Nat) : Termios :=
  if speed ∈ validSpeedCodes then { tty with c_ispeed := speed } else tty

/-- Result of `configure_serial_port`: the C return value, the serial line's
attribute state after the call, and the list of attribute records committed by
`tcsetattr` during the call (the source has a single `tcsetattr` call site, so
this list records each commit in order). -/
structure ConfigResult where
  ret : Int
  line : Termios
  commits : List Termios
deriving DecidableEq, Repr

/-- `configure_serial_port` from `src/forwarder.c`.  `line` is the device's
attribute state before the call (what `tcgetattr` reads); `tcgetattr_ok` and
`tcsetattr_ok` say whether those system calls succeed.  All edits are made on
the local copy `tty` and committed by the single `tcsetattr` at the end.
Note the source does not check `baudrate_to_speed_t`'s sentinel: the returned
code, valid or not, is passed straight to `cfsetospeed`/`cfsetispeed`. -/
def configure_serial_port (line : Termios) (baud_rate : Int)
    (tcgetattr_ok tcsetattr_ok : Bool) : ConfigResult :=
  if !tcgetattr_ok then
    { ret := -1, line := line, commits := [] }
  else
    let tty := line
    let b := baudrate_to_speed_t baud_rate
    let tty := cfsetospeed tty b
    let tty := cfsetispeed tty b
    let tty := { tty with c_cflag := tty.c_cflag &&& compl32 PARENB }
    let tty := { tty with c_cflag := tty.c_cflag &&& compl32 CSTOPB }
    let tty := { tty with c_cflag := tty.c_cflag &&& compl32 CSIZE }
    let tty := { tty with c_cflag := tty.c_cflag ||| CS8 }
    let tty := { tty with c_cflag := tty.c_cflag &&& compl32 CRTSCTS }
    let tty := { tty with c_cflag := tty.c_cflag ||| (CREAD ||| CLOCAL) }
    let tty := { tty with c_lflag := tty.c_lflag &&& compl32 ICANON }
    let tty := { tty with c_lflag := tty.c_lflag &&& compl32 ECHO }
    let tty := { tty with c_lflag := tty.c_lflag &&& compl32 ECHOE }
    let tty := { tty with c_lflag := tty.c_lflag &&& compl32 ECHONL }
    let tty := { tty with c_lflag := tty.c_lflag &&& compl32 ISIG }
    let tty := { tty with c_iflag := tty.c_iflag &&& compl32 (IXON ||| IXOFF ||| IXANY) }
    let specials := IGNBRK ||| BRKINT ||| PARMRK ||| ISTRIP ||| INLCR ||| IGNCR ||| ICRNL
    let tty := { tty with c_iflag := tty.c_iflag &&& compl32 specials }
    let tty := { tty with c_oflag := tty.c_oflag &&& compl32 OPOST }
    let tty := { tty with c_oflag := tty.c_oflag &&& compl32 ONLCR }
    let tty := { tty with c_cc := (tty.c_cc.set VTIME 10).set VMIN 1 }
    if !tcsetattr_ok then
      { ret := -1, line := line, commits := [tty] }
    else
      { ret := 0, line := tty, commits := [tty] }

/-- A concrete prior attribute state used for evaluating the configuration
code on explicit inputs. -/
def sampleTty : Termios :=
  { c_iflag := 0x500, c_oflag := 0x5, c_cflag := 0xcbd, c_lflag := 0x8a3b,
    c_cc := List.replicate NCCS 0, c_ispeed := B9600, c_ospeed := B9600 }

/-! ### The flag values configure_serial_port builds, field by field -/

/-- The `c_cflag` value after the six `c_cflag` edits of
`configure_serial_port`, as a function of the value `tcgetattr` read. -/
def cflagFinal (x : Nat) : Nat :=
  ((((x &&& compl32 PARENB) &&& compl32 CSTOPB) &&& compl32 CSIZE ||| CS8)
    &&& compl32 CRTSCTS) ||| (CREAD ||| CLOCAL)

/-- The `c_lflag` value after the five `c_lflag` edits. -/
def lflagFinal (x : Nat) : Nat :=
  ((((x &&& compl32 ICANON) &&& compl32 ECHO) &&& compl32 ECHOE)
    &&& compl32 ECHONL) &&& compl32 ISIG

/-- The `c_iflag` value after the two `c_iflag` edits. -/
def iflagFinal (x : Nat) : Nat :=
  (x &&& compl32 (IXON ||| IXOFF ||| IXANY)) &&&
    compl32 (IGNBRK ||| BRKINT ||| PARMRK ||| ISTRIP ||| INLCR ||| IGNCR ||| ICRNL)

/-- The `c_oflag` value after the two `c_oflag` edits. -/
def oflagFinal (x : Nat) : Nat :=
  (x &&& compl32 OPOST) &&& compl32 ONLCR

lemma cflagFinal_eq (x : Nat) : cflagFinal x = x &&& 0x7ffffe8f ||| 0x8b0 := by
  apply Nat.eq_of_testBit_eq
  intro i
  simp only [cflagFinal, compl32, PARENB, CSTOPB, CSIZE, CS8, CRTSCTS, CREAD, CLOCAL,
    Nat.testBit_and, Nat.testBit_or, Nat.testBit_xor]
  rcases Nat.lt_or_ge i 32 with h | h
  · interval_cases i <;> simp [Nat.testBit_to_div_mod]
  · have hc : ∀ c : Nat, c < 2 ^ 32 → Nat.testBit c i = false := fun c hcc =>
      Nat.testBit_lt_two_pow (lt_of_lt_of_le hcc (Nat.pow_le_pow_right (by norm_num) h))
    have h32 : ¬ i < 32 := by omega
    simp [hc 256 (by norm_num), hc 64 (by norm_num), hc 48 (by norm_num),
      hc 2147483648 (by norm_num), hc 128 (by norm_num), hc 2048 (by norm_num),
      hc 0x7ffffe8f (by norm_num), hc 0x8b0 (by norm_num), hc 4294967295 (by norm_num),
      Nat.testBit_two_pow_sub_one, h32]

lemma lflagFinal_eq (x : Nat) : lflagFinal x = x &&& 0xffffffa4 := by
  apply Nat.eq_of_testBit_eq
  intro i
  simp only [lflagFinal, compl32, ICANON, ECHO, ECHOE, ECHONL, ISIG,
    Nat.testBit_and, Nat.testBit_or, Nat.testBit_xor]
  rcases Nat.lt_or_ge i 32 with h | h
  · interval_cases i <;> simp [Nat.testBit_to_div_mod]
  · have hc : ∀ c : Nat, c < 2 ^ 32 → Nat.testBit c i = false := fun c hcc =>
      Nat.testBit_lt_two_pow (lt_of_lt_of_le hcc (Nat.pow_le_pow_right (by norm_num) h))
    have h32 : ¬ i < 32 := by omega
    simp [hc 2 (by norm_num), hc 8 (by norm_num), hc 16 (by norm_num),
      hc 64 (by norm_num), hc 1 (by norm_num), hc 0xffffffa4 (by norm_num),
      hc 4294967295 (by norm_num), Nat.testBit_two_pow_sub_one, h32]

lemma iflagFinal_eq (x : Nat) : iflagFinal x = x &&& 0xffffe214 := by
  apply Nat.eq_of_testBit_eq
  intro i
  simp only [iflagFinal, compl32, IXON, IXOFF, IXANY, IGNBRK, BRKINT, PARMRK, ISTRIP,
    INLCR, IGNCR, ICRNL, Nat.testBit_and, Nat.testBit_or, Nat.testBit_xor]
  rcases Nat.lt_or_ge i 32 with h | h
  · interval_cases i <;> simp [Nat.testBit_to_div_mod]
  · have hc : ∀ c : Nat, c < 2 ^ 32 → Nat.testBit c i = false := fun c hcc =>
      Nat.testBit_lt_two_pow (lt_of_lt_of_le hcc (Nat.pow_le_pow_right (by norm_num) h))
    have h32 : ¬ i < 32 := by omega
    simp [hc 1024 (by norm_num), hc 4096 (by norm_num), hc 2048 (by norm_num),
      hc 1 (by norm_num), hc 2 (by norm_num), hc 8 (by norm_num), hc 32 (by norm_num),
      hc 64 (by norm_num), hc 128 (by norm_num), hc 256 (by norm_num),
      hc 0xffffe214 (by norm_num), hc 4294967295 (by norm_num),
      Nat.testBit_two_pow_sub_one, h32]

lemma oflagFinal_eq (x : Nat) : oflagFinal x = x &&& 0xfffffffa := by
  apply Nat.eq_of_testBit_eq
  intro i
  simp only [oflagFinal, compl32, OPOST, ONLCR,
    Nat.testBit_and, Nat.testBit_or, Nat.testBit_xor]
  rcases Nat.lt_or_ge i 32 with h | h
  · interval_cases i <;> simp [Nat.testBit_to_div_mod]
  · have hc : ∀ c : Nat, c < 2 ^ 32 → Nat.testBit c i = false := fun c hcc =>
      Nat.testBit_lt_two_pow (lt_of_lt_of_le hcc (Nat.pow_le_pow_right (by norm_num) h))
    have h32 : ¬ i < 32 := by omega
    simp [hc 1 (by norm_num), hc 4 (by norm_num), hc 0xfffffffa (by norm_num),
      hc 4294967295 (by norm_num), Nat.testBit_two_pow_sub_one, h32]

lemma masked_canon0 (x K M : Nat) (h : K &&& M = 0) : (x &&& K) &&& M = 0 := by
  rw [Nat.and_assoc, h]
  simp

lemma masked_canon (x K S M a b : Nat) (hK : K &&& M = a) (hS : S &&& M = b) :
    (x &&& K ||| S) &&& M = x &&& a ||| b := by
  rw [Nat.and_distrib_right, Nat.and_assoc, hK, hS]

lemma land_lor_absorb (x m : Nat) : (x &&& m) ||| m = m := by
  apply Nat.eq_of_testBit_eq
  intro i
  simp only [Nat.testBit_or, Nat.testBit_and]
  cases x.testBit i <;> cases m.testBit i <;> rfl

@[simp] lemma cfsetospeed_c_iflag (tty : Termios) (s : Nat) :
    (cfsetospeed tty s).c_iflag = tty.c_iflag := by
  unfold cfsetospeed; split <;> rfl

@[simp] lemma cfsetospeed_c_oflag (tty : Termios) (s : Nat) :
    (cfsetospeed tty s).c_oflag = tty.c_oflag := by
  unfold cfsetospeed; split <;> rfl

@[simp] lemma cfsetospeed_c_cflag (tty : Termios) (s : Nat) :
    (cfsetospeed tty s).c_cflag = tty.c_cflag := by
  unfold cfsetospeed; split <;> rfl

@[simp] lemma cfsetospeed_c_lflag (tty : Termios) (s : Nat) :
    (cfsetospeed tty s).c_lflag = tty.c_lflag := by
  unfold cfsetospeed; split <;> rfl

@[simp] lemma cfsetospeed_c_cc (tty : Termios) (s : Nat) :
    (cfsetospeed tty s).c_cc = tty.c_cc := by
  unfold cfsetospeed; split <;> rfl

@[simp] lemma cfsetispeed_c_iflag (tty : Termios) (s : Nat) :
    (cfsetispeed tty s).c_iflag = tty.c_iflag := by
  unfold cfsetispeed; split <;> rfl

@[simp] lemma cfsetispeed_c_oflag (tty : Termios) (s : Nat) :
    (cfsetispeed tty s).c_oflag = tty.c_oflag := by
  unfold cfsetispeed; split <;> rfl

@[simp] lemma cfsetispeed_c_cflag (tty : Termios) (s : Nat) :
    (cfsetispeed tty s).c_cflag = tty.c_cflag := by
  unfold cfsetispeed; split <;> rfl

@[simp] lemma cfsetispeed_c_lflag (tty : Termios) (s : Nat) :
    (cfsetispeed tty s).c_lflag = tty.c_lflag := by
  unfold cfsetispeed; split <;> rfl

@[simp] lemma cfsetispeed_c_cc (tty : Termios) (s : Nat) :
    (cfsetispeed tty s).c_cc = tty.c_cc := by
  unfold cfsetispeed; split <;> rfl

@[simp] lemma cfsetispeed_c_ospeed (tty : Termios) (s : Nat) :
    (cfsetispeed tty s).c_ospeed = tty.c_ospeed := by
  unfold cfsetispeed; split <;> rfl

lemma configure_ok_ret (line : Termios) (b : Int) :
    (configure_serial_port line b true true).ret = 0 := rfl

lemma configure_ok_commits (line : Termios) (b : Int) :
    (configure_serial_port line b true true).commits =
      [(configure_serial_port line b true true).line] := rfl

lemma configure_ok_c_cflag (line : Termios) (b : Int) :
    (configure_serial_port line b true true).line.c_cflag = cflagFinal line.c_cflag := by
  simp [configure_serial_port, cflagFinal]

lemma configure_ok_c_lflag (line : Termios) (b : Int) :
    (configure_serial_port line b true true).line.c_lflag = lflagFinal line.c_lflag := by
  simp [configure_serial_port, lflagFinal]

lemma configure_ok_c_iflag (line : Termios) (b : Int) :
    (configure_serial_port line b true true).line.c_iflag = iflagFinal line.c_iflag := by
  simp [configure_serial_port, iflagFinal]

lemma configure_ok_c_oflag (line : Termios) (b : Int) :
    (configure_serial_port line b true true).line.c_oflag = oflagFinal line.c_oflag := by
  simp [configure_serial_port, oflagFinal]

lemma configure_ok_c_cc (line : Termios) (b : Int) :
    (configure_serial_port line b true true).line.c_cc =
      (line.c_cc.set VTIME 10).set VMIN 1 := by
  simp [configure_serial_port]

/-- C1: the claim says any baud rate outside the enumerated set makes
`configure_serial_port` fail without mutating the line's prior attribute
state.  The code violates this: `baudrate_to_speed_t` returns the `(speed_t)-1`
sentinel for the unsupported rate 12345, but `configure_serial_port` never
checks it — with `tcgetattr`/`tcsetattr` succeeding it commits the raw-mode
attributes anyway, returns 0 (success), and silently keeps the line's prior
speed. -/
theorem claim_C1_unsupported_baud_not_rejected :
    (12345 : Int) ∉ supported_bauds ∧
    baudrate_to_speed_t 12345 = speed_t_err ∧
    (configure_serial_port sampleTty 12345 true true).ret = 0 ∧
    (configure_serial_port sampleTty 12345 true true).line ≠ sampleTty ∧
    (configure_serial_port sampleTty 12345 true true).commits ≠ [] ∧
    (configure_serial_port sampleTty 12345 true true).line.c_ospeed =
      sampleTty.c_ospeed := by
  decide

/-- C3: for every supported baud rate, when `tcgetattr` and `tcsetattr`
succeed, `configure_serial_port` returns 0 and the line ends in the documented
raw-mode state — 8 data bits (CSIZE field = CS8), no parity, 1 stop bit,
hardware and software flow control disabled, receiver enabled and modem
control ignored, canonical/echo/signal processing disabled, output
post-processing disabled, input special-character handling disabled, and the
requested speed installed — all committed by exactly one `tcsetattr` carrying
the final attribute record. -/
theorem claim_C3_configure_raw_mode (line : Termios) (baud : Int)
    (hb : baud ∈ supported_bauds) :
    (configure_serial_port line baud true true).ret = 0 ∧
    (configure_serial_port line baud true true).commits =
      [(configure_serial_port line baud true true).line] ∧
    (configure_serial_port line baud true true).line.c_ospeed =
      baudrate_to_speed_t baud ∧
    (configure_serial_port line baud true true).line.c_ispeed =
      baudrate_to_speed_t baud ∧
    (configure_serial_port line baud true true).line.c_cflag &&& CSIZE = CS8 ∧
    (configure_serial_port line baud true true).line.c_cflag &&& PARENB = 0 ∧
    (configure_serial_port line baud true true).line.c_cflag &&& CSTOPB = 0 ∧
    (configure_serial_port line baud true true).line.c_cflag &&& CRTSCTS = 0 ∧
    (configure_serial_port line baud true true).line.c_cflag &&& CREAD = CREAD ∧
    (configure_serial_port line baud true true).line.c_cflag &&& CLOCAL = CLOCAL ∧
    (configure_serial_port line baud true true).line.c_lflag &&&
      (ICANON ||| ECHO ||| ECHOE ||| ECHONL ||| ISIG) = 0 ∧
    (configure_serial_port line baud true true).line.c_iflag &&&
      (IXON ||| IXOFF ||| IXANY) = 0 ∧
    (configure_serial_port line baud true true).line.c_iflag &&&
      (IGNBRK ||| BRKINT ||| PARMRK ||| ISTRIP ||| INLCR ||| IGNCR ||| ICRNL) = 0 ∧
    (configure_serial_port line baud true true).line.c_oflag &&&
      (OPOST ||| ONLCR) = 0 := by
  refine ⟨configure_ok_ret line baud, configure_ok_commits line baud,
    ?_, ?_, ?_, ?_, ?_, ?_, ?_, ?_, ?_, ?_, ?_, ?_⟩
  · fin_cases hb <;> rfl
  · fin_cases hb <;> rfl
  · rw [configure_ok_c_cflag, cflagFinal_eq,
      masked_canon _ _ _ CSIZE 0 CS8 (by decide) (by decide)]
    simp
  · rw [configure_ok_c_cflag, cflagFinal_eq,
      masked_canon _ _ _ PARENB 0 0 (by decide) (by decide)]
    simp
  · rw [configure_ok_c_cflag, cflagFinal_eq,
      masked_canon _ _ _ CSTOPB 0 0 (by decide) (by decide)]
    simp
  · rw [configure_ok_c_cflag, cflagFinal_eq,
      masked_canon _ _ _ CRTSCTS 0 0 (by decide) (by decide)]
    simp
  · rw [configure_ok_c_cflag, cflagFinal_eq,
      masked_canon _ _ _ CREAD CREAD CREAD (by decide) (by decide)]
    exact land_lor_absorb _ _
  · rw [configure_ok_c_cflag, cflagFinal_eq,
      masked_canon _ _ _ CLOCAL CLOCAL CLOCAL (by decide) (by decide)]
    exact land_lor_absorb _ _
  · rw [configure_ok_c_lflag, lflagFinal_eq]
    exact masked_canon0 _ _ _ (by decide)
  · rw [configure_ok_c_iflag, iflagFinal_eq]
    exact masked_canon0 _ _ _ (by decide)
  · rw [configure_ok_c_iflag, iflagFinal_eq]
    exact masked_canon0 _ _ _ (by decide)
  · rw [configure_ok_c_oflag, oflagFinal_eq]
    exact masked_canon0 _ _ _ (by decide)

/-- Witness for C3: the theorem applied at the supported rate 115200 and a
concrete prior attribute state. -/
theorem claim_C3_witness :
    (115200 : Int) ∈ supported_bauds ∧
    ((configure_serial_port sampleTty 115200 true true).ret = 0 ∧
    (configure_serial_port sampleTty 115200 true true).commits =
      [(configure_serial_port sampleTty 115200 true true).line] ∧
    (configure_serial_port sampleTty 115200 true true).line.c_ospeed =
      baudrate_to_speed_t 115200 ∧
    (configure_serial_port sampleTty 115200 true true).line.c_ispeed =
      baudrate_to_speed_t 115200 ∧
    (configure_serial_port sampleTty 115200 true true).line.c_cflag &&& CSIZE = CS8 ∧
    (configure_serial_port sampleTty 115200 true true).line.c_cflag &&& PARENB = 0 ∧
    (configure_serial_port sampleTty 115200 true true).line.c_cflag &&& CSTOPB = 0 ∧
    (configure_serial_port sampleTty 115200 true true).line.c_cflag &&& CRTSCTS = 0 ∧
    (configure_serial_port sampleTty 115200 true true).line.c_cflag &&& CREAD = CREAD ∧
    (configure_serial_port sampleTty 115200 true true).line.c_cflag &&& CLOCAL = CLOCAL ∧
    (configure_serial_port sampleTty 115200 true true).line.c_lflag &&&
      (ICANON ||| ECHO ||| ECHOE ||| ECHONL ||| ISIG) = 0 ∧
    (configure_serial_port sampleTty 115200 true true).line.c_iflag &&&
      (IXON ||| IXOFF ||| IXANY) = 0 ∧
    (configure_serial_port sampleTty 115200 true true).line.c_iflag &&&
      (IGNBRK ||| BRKINT ||| PARMRK ||| ISTRIP ||| INLCR ||| IGNCR ||| ICRNL) = 0 ∧
    (configure_serial_port sampleTty 115200 true true).line.c_oflag &&&
      (OPOST ||| ONLCR) = 0) :=
  ⟨by decide, claim_C3_configure_raw_mode sampleTty 115200 (by decide)⟩

/-- C6: `configure_serial_port` sets the control characters to `VTIME = 10`
tenths of a second and `VMIN = 1`, the read-timeout policy under which a
serial read blocks until at least one byte arrives or nominally one second of
inactivity elapses. -/
theorem claim_C6_read_timeout_policy (line : Termios) (baud : Int)
    (h : line.c_cc.length = NCCS) :
    (configure_serial_port line baud true true).line.c_cc[VTIME]? = some 10 ∧
    (configure_serial_port line baud true true).line.c_cc[VMIN]? = some 1 := by
  rw [configure_ok_c_cc]
  constructor
  · rw [List.getElem?_set_ne (by simp [VTIME, VMIN]),
      List.getElem?_set_self (by simp [VTIME, h, NCCS])]
  · rw [List.getElem?_set_self (by simp [VMIN, h, NCCS])]

/-- Witness for C6: the theorem applied at a concrete attribute state with the
standard `NCCS`-length control-character array. -/
theorem claim_C6_witness :
    sampleTty.c_cc.length = NCCS ∧
    ((configure_serial_port sampleTty 115200 true true).line.c_cc[VTIME]? = some 10 ∧
    (configure_serial_port sampleTty 115200 true true).line.c_cc[VMIN]? = some 1) :=
  ⟨by decide, claim_C6_read_timeout_policy sampleTty 115200 (by decide)⟩

/-! ### The forwarding engine

Each forwarding thread of `src/forwarder.c` is a loop
`while ((bytes_read = read-side(...)) > 0) { (log;) write-side(...); }`
over a stack buffer that persists across iterations.  A thread is embedded as
a recursive function over a finite trace of `IoEvent`s, one per loop
iteration: `readRet` is the result of that iteration's `recv`/`read`,
`readData` the bytes the kernel placed at the start of the buffer (empty when
`readRet ≤ 0`), and `writeRet` the result of the iteration's `write` if the
loop body reaches it. -/

def RX_BUFFER_SIZE : Nat := 2

def TX_BUFFER_SIZE : Nat := 256

/-- One loop iteration's system-call results. -/
structure IoEvent where
  readRet : Int
  readData : List Nat
  writeRet : Int
deriving DecidableEq, Repr

/-- How a forwarding thread's loop left off after consuming a trace. -/
inductive ThreadOutcome where
  /-- The trace is exhausted with the loop still running (the thread is
  blocked in its next read). -/
  | blocked
  /-- A read returned zero or a negative result: the `while` condition
  failed and the thread returned `NULL` normally. -/
  | finished
  /-- A write transferred fewer bytes than requested: `perror` + `exit(1)`,
  terminating the whole process with a non-zero status. -/
  | fatal
deriving DecidableEq, Repr

/-- A read filling the first `data.length` cells of the buffer; the remaining
cells keep their previous (stale) contents. -/
def fillBuf (buf : Nat → Nat) (data : List Nat) : Nat → Nat :=
  fun i => data.getD i (buf i)

/-- State of `tcp_to_serial_thread`: its stack buffer (`char buffer[2]`), the
verbose log entries printed so far (`printf("%x %x", buffer[0], buffer[1])`),
and the bytes written to the serial descriptor so far. -/
structure TcpThreadState where
  buf : Nat → Nat
  log : List (Nat × Nat)
  serialWritten : List Nat

/-- `tcp_to_serial_thread` from `src/forwarder.c`: reads chunks from the TCP
socket and writes exactly `bytes_read` bytes of the buffer to the serial
descriptor; under `verbose` it first prints `buffer[0]` and `buffer[1]`.  A
write result different from `bytes_read` is `perror` + `exit(1)`. -/
def tcp_to_serial_run (verbose : Bool) (s : TcpThreadState) :
    List IoEvent → TcpThreadState × ThreadOutcome
  | [] => (s, .blocked)
  | e :: rest =>
    if e.readRet ≤ 0 then (s, .finished)
    else
      let bufNew := fillBuf s.buf e.readData
      let logNew := if verbose then s.log ++ [(bufNew 0, bufNew 1)] else s.log
      let chunk := (List.range e.readRet.toNat).map bufNew
      if e.writeRet ≠ e.readRet then
        ({ buf := bufNew, log := logNew,
           serialWritten := s.serialWritten ++ chunk.take e.writeRet.toNat }, .fatal)
      else
        tcp_to_serial_run verbose
          { buf := bufNew, log := logNew, serialWritten := s.serialWritten ++ chunk } rest

/-- State of `serial_to_tcp_thread`: its stack buffer (`char buffer[256]`),
the bytes written to local standard output, and the bytes sent back to the
TCP peer (the `send` call is compiled out under `#if 0`, so nothing ever
appends to `tcpSent`). -/
structure SerialThreadState where
  buf : Nat → Nat
  stdoutWritten : List Nat
  tcpSent : List Nat

/-- `serial_to_tcp_thread` from `src/forwarder.c`: reads chunks from the
serial descriptor and writes exactly `bytes_read` bytes to `STDOUT_FILENO`;
a short write is `perror` + `exit(1)`. -/
def serial_to_tcp_run (s : SerialThreadState) :
    List IoEvent → SerialThreadState × ThreadOutcome
  | [] => (s, .blocked)
  | e :: rest =>
    if e.readRet ≤ 0 then (s, .finished)
    else
      let bufNew := fillBuf s.buf e.readData
      let chunk := (List.range e.readRet.toNat).map bufNew
      if e.writeRet ≠ e.readRet then
        ({ buf := bufNew,
           stdoutWritten := s.stdoutWritten ++ chunk.take e.writeRet.toNat,
           tcpSent := s.tcpSent }, .fatal)
      else
        serial_to_tcp_run
          { buf := bufNew, stdoutWritten := s.stdoutWritten ++ chunk,
            tcpSent := s.tcpSent } rest

/-- Thread start state: arbitrary (uninitialised) stack buffer, nothing
logged, nothing written. -/
def tcpInit (buf0 : Nat → Nat) : TcpThreadState :=
  { buf := buf0, log := [], serialWritten := [] }

/-- Thread start state for the serial→stdout direction. -/
def serialInit (buf0 : Nat → Nat) : SerialThreadState :=
  { buf := buf0, stdoutWritten := [], tcpSent := [] }

/-- A trace is consistent with the read system call's contract on a buffer
of capacity `cap`: a positive result is at most `cap` and equals the number
of bytes delivered. -/
def ReadsWellFormed (cap : Int) (events : List IoEvent) : Prop :=
  ∀ e ∈ events, 0 < e.readRet → e.readRet ≤ cap ∧ e.readData.length = e.readRet.toNat

/-- Every write the loop performs transfers the full requested count. -/
def WritesSucceed (events : List IoEvent) : Prop :=
  ∀ e ∈ events, e.writeRet = e.readRet

/-- The bytes the read side delivers before the first zero/negative read:
the concatenation, in order, of each successful read's data. -/
def receivedBytes (events : List IoEvent) : List Nat :=
  ((events.takeWhile fun e => decide (0 < e.readRet)).map fun e => e.readData).flatten

lemma fillBuf_chunk (buf : Nat → Nat) (data : List Nat) (n : Nat)
    (h : data.length = n) : (List.range n).map (fillBuf buf data) = data := by
  subst h
  apply List.ext_getElem
  · simp
  · intro i h1 h2
    simp only [List.getElem_map, List.getElem_range, fillBuf]
    exact List.getD_eq_getElem data _ h2

lemma tcp_run_written (v : Bool) (events : List IoEvent) (s : TcpThreadState)
    (hwf : ReadsWellFormed RX_BUFFER_SIZE events) (hw : WritesSucceed events) :
    (tcp_to_serial_run v s events).1.serialWritten =
      s.serialWritten ++ receivedBytes events := by
  induction events generalizing s with
  | nil => simp [tcp_to_serial_run, receivedBytes]
  | cons e rest ih =>
    by_cases hr : e.readRet ≤ 0
    · have : ¬ (0 < e.readRet) := by omega
      simp [tcp_to_serial_run, hr, receivedBytes, this]
    · have hpos : 0 < e.readRet := by omega
      have h1 : e.writeRet = e.readRet := hw e (by simp)
      have h2 : e.readData.length = e.readRet.toNat := (hwf e (by simp) hpos).2
      have hrest1 : ReadsWellFormed RX_BUFFER_SIZE rest := fun x hx => hwf x (by simp [hx])
      have hrest2 : WritesSucceed rest := fun x hx => hw x (by simp [hx])
      simp [tcp_to_serial_run, hr, h1, receivedBytes, hpos, ih _ hrest1 hrest2,
        fillBuf_chunk s.buf e.readData _ h2, List.takeWhile_cons]

lemma serial_run_written (events : List IoEvent) (s : SerialThreadState)
    (hwf : ReadsWellFormed TX_BUFFER_SIZE events) (hw : WritesSucceed events) :
    (serial_to_tcp_run s events).1.stdoutWritten =
      s.stdoutWritten ++ receivedBytes events := by
  induction events generalizing s with
  | nil => simp [serial_to_tcp_run, receivedBytes]
  | cons e rest ih =>
    by_cases hr : e.readRet ≤ 0
    · have : ¬ (0 < e.readRet) := by omega
      simp [serial_to_tcp_run, hr, receivedBytes, this]
    · have hpos : 0 < e.readRet := by omega
      have h1 : e.writeRet = e.readRet := hw e (by simp)
      have h2 : e.readData.length = e.readRet.toNat := (hwf e (by simp) hpos).2
      have hrest1 : ReadsWellFormed TX_BUFFER_SIZE rest := fun x hx => hwf x (by simp [hx])
      have hrest2 : WritesSucceed rest := fun x hx => hw x (by simp [hx])
      simp [serial_to_tcp_run, hr, h1, receivedBytes, hpos, ih _ hrest1 hrest2,
        fillBuf_chunk s.buf e.readData _ h2, List.takeWhile_cons]

lemma serial_run_tcpSent (events : List IoEvent) (s : SerialThreadState) :
    (serial_to_tcp_run s events).1.tcpSent = s.tcpSent := by
  induction events generalizing s with
  | nil => rfl
  | cons e rest ih =>
    by_cases hr : e.readRet ≤ 0
    · simp [serial_to_tcp_run, hr]
    · by_cases hw : e.writeRet ≠ e.readRet
      · simp [serial_to_tcp_run, hr, hw]
      · simp [serial_to_tcp_run, hr, hw, ih]

/-- C2: every chunk the forwarding engine reads is forwarded verbatim.  For
Direction A (TCP→serial), when reads respect the read contract and all writes
complete, the bytes written to the serial descriptor are exactly the
concatenation, in order, of the `bytes_read`-byte chunks of each `recv` —
no reordering, truncation or duplication.  Symmetrically for Direction B
(serial→stdout); and Direction B sends nothing back to the TCP peer. -/
theorem claim_C2_forwarding_verbatim (v : Bool) (buf0 sbuf0 : Nat → Nat)
    (events sevents : List IoEvent)
    (hwf : ReadsWellFormed RX_BUFFER_SIZE events) (hw : WritesSucceed events)
    (hswf : ReadsWellFormed TX_BUFFER_SIZE sevents) (hsw : WritesSucceed sevents) :
    (tcp_to_serial_run v (tcpInit buf0) events).1.serialWritten = receivedBytes events ∧
    (serial_to_tcp_run (serialInit sbuf0) sevents).1.stdoutWritten = receivedBytes sevents ∧
    (serial_to_tcp_run (serialInit sbuf0) sevents).1.tcpSent = [] := by
  refine ⟨?_, ?_, ?_⟩
  · simpa [tcpInit] using tcp_run_written v events (tcpInit buf0) hwf hw
  · simpa [serialInit] using serial_run_written sevents (serialInit sbuf0) hswf hsw
  · simpa [serialInit] using serial_run_tcpSent sevents (serialInit sbuf0)

/-- Witness for C2: a concrete two-chunk TCP trace and a one-chunk serial
trace, all reads and writes well formed. -/
theorem claim_C2_witness :
    (tcp_to_serial_run false (tcpInit fun _ => 0)
        [⟨2, [254, 30], 2⟩, ⟨2, [255, 30], 2⟩, ⟨0, [], 0⟩]).1.serialWritten =
      receivedBytes [⟨2, [254, 30], 2⟩, ⟨2, [255, 30], 2⟩, ⟨0, [], 0⟩] ∧
    (serial_to_tcp_run (serialInit fun _ => 0)
        [⟨3, [68, 79, 77], 3⟩]).1.stdoutWritten = receivedBytes [⟨3, [68, 79, 77], 3⟩] ∧
    (serial_to_tcp_run (serialInit fun _ => 0) [⟨3, [68, 79, 77], 3⟩]).1.tcpSent = [] :=
  claim_C2_forwarding_verbatim false (fun _ => 0) (fun _ => 0)
    [⟨2, [254, 30], 2⟩, ⟨2, [255, 30], 2⟩, ⟨0, [], 0⟩] [⟨3, [68, 79, 77], 3⟩]
    (by unfold ReadsWellFormed; decide) (by unfold WritesSucceed; decide)
    (by unfold ReadsWellFormed; decide) (by unfold WritesSucceed; decide)

lemma tcp_run_eof (v : Bool) (s : TcpThreadState) (e : IoEvent)
    (rest : List IoEvent) (hr : e.readRet ≤ 0) :
    tcp_to_serial_run v s (e :: rest) = (s, .finished) := by
  simp [tcp_to_serial_run, hr]

lemma tcp_run_fatal (v : Bool) (s : TcpThreadState) (e : IoEvent)
    (rest : List IoEvent) (hr : ¬ e.readRet ≤ 0) (hwr : ¬ e.writeRet = e.readRet) :
    tcp_to_serial_run v s (e :: rest) =
      ({ buf := fillBuf s.buf e.readData,
         log := if v then s.log ++ [(fillBuf s.buf e.readData 0,
           fillBuf s.buf e.readData 1)] else s.log,
         serialWritten := s.serialWritten ++
           ((List.range e.readRet.toNat).map (fillBuf s.buf e.readData)).take
             e.writeRet.toNat }, .fatal) := by
  simp [tcp_to_serial_run, hr, hwr]

lemma tcp_run_continue (v : Bool) (s : TcpThreadState) (e : IoEvent)
    (rest : List IoEvent) (hr : ¬ e.readRet ≤ 0) (hwr : e.writeRet = e.readRet) :
    tcp_to_serial_run v s (e :: rest) =
      tcp_to_serial_run v
        { buf := fillBuf s.buf e.readData,
          log := if v then s.log ++ [(fillBuf s.buf e.readData 0,
            fillBuf s.buf e.readData 1)] else s.log,
          serialWritten := s.serialWritten ++
            (List.range e.readRet.toNat).map (fillBuf s.buf e.readData) } rest := by
  simp [tcp_to_serial_run, hr, hwr]

lemma tcp_run_log_independent (events : List IoEvent) (v v' : Bool)
    (s s' : TcpThreadState) (hb : s.buf = s'.buf)
    (hser : s.serialWritten = s'.serialWritten) :
    (tcp_to_serial_run v s events).1.buf = (tcp_to_serial_run v' s' events).1.buf ∧
    (tcp_to_serial_run v s events).1.serialWritten =
      (tcp_to_serial_run v' s' events).1.serialWritten ∧
    (tcp_to_serial_run v s events).2 = (tcp_to_serial_run v' s' events).2 := by
  induction events generalizing s s' with
  | nil => exact ⟨hb, hser, rfl⟩
  | cons e rest ih =>
    by_cases hr : e.readRet ≤ 0
    · rw [tcp_run_eof v s e rest hr, tcp_run_eof v' s' e rest hr]
      exact ⟨hb, hser, rfl⟩
    · by_cases hwr : e.writeRet = e.readRet
      · rw [tcp_run_continue v s e rest hr hwr, tcp_run_continue v' s' e rest hr hwr]
        exact ih _ _ (by rw [hb]) (by rw [hb, hser])
      · rw [tcp_run_fatal v s e rest hr hwr, tcp_run_fatal v' s' e rest hr hwr]
        exact ⟨by rw [hb], by rw [hb, hser], rfl⟩

/-- C8: the verbose flag has no effect on forwarding semantics.  For any
input trace and any initial buffer contents, the bytes Direction A writes to
the serial descriptor — and the way its loop terminates — are identical with
verbose logging on and off. -/
theorem claim_C8_verbose_no_effect (events : List IoEvent) (buf0 : Nat → Nat) :
    (tcp_to_serial_run true (tcpInit buf0) events).1.serialWritten =
      (tcp_to_serial_run false (tcpInit buf0) events).1.serialWritten ∧
    (tcp_to_serial_run true (tcpInit buf0) events).2 =
      (tcp_to_serial_run false (tcpInit buf0) events).2 := by
  have h := tcp_run_log_independent events true false (tcpInit buf0) (tcpInit buf0) rfl rfl
  exact ⟨h.2.1, h.2.2⟩

/-- C9: when verbose mode is on and a `recv` returns exactly 1 byte, the
diagnostic `printf` reads `buffer[1]`, which that `recv` did not fill: the
second logged value is the stale pre-iteration buffer content at index 1, not
a byte of the received chunk.  The forwarded bytes themselves remain exactly
the one received byte. -/
theorem claim_C9_verbose_reads_stale_byte (s : TcpThreadState) (b : Nat)
    (e : IoEvent) (h1 : e.readRet = 1) (hd : e.readData = [b]) (hw : e.writeRet = 1) :
    (tcp_to_serial_run true s [e]).1.log = s.log ++ [(b, s.buf 1)] ∧
    (tcp_to_serial_run true s [e]).1.serialWritten = s.serialWritten ++ [b] := by
  simp [tcp_to_serial_run, h1, hd, hw, fillBuf, List.range_succ]

/-- Witness for C9: a buffer whose stale index-1 cell holds 0x42; the 1-byte
recv of 0x30 logs `(0x30, 0x42)` and forwards only `[0x30]`. -/
theorem claim_C9_witness :
    (tcp_to_serial_run true ⟨fun _ => 0x42, [], []⟩ [⟨1, [0x30], 1⟩]).1.log =
      [(0x30, 0x42)] ∧
    (tcp_to_serial_run true ⟨fun _ => 0x42, [], []⟩ [⟨1, [0x30], 1⟩]).1.serialWritten =
      [0x30] := by
  simpa using claim_C9_verbose_reads_stale_byte ⟨fun _ => 0x42, [], []⟩ 0x30
    ⟨1, [0x30], 1⟩ rfl rfl rfl

/-- C4: in each direction, a read returning zero or a negative result ends
that direction's loop with the thread returning normally (`.finished`), the
state untouched and the remainder of the trace never examined; a short write
(including a write error) on a successful read makes the process exit
fatally at once (`.fatal` models `exit(1)`), with no retry — the run is
identical whatever events would have followed. -/
theorem claim_C4_eof_ends_short_write_fatal :
    (∀ (v : Bool) (s : TcpThreadState) (e : IoEvent) (rest : List IoEvent),
      e.readRet ≤ 0 → tcp_to_serial_run v s (e :: rest) = (s, .finished)) ∧
    (∀ (s : SerialThreadState) (e : IoEvent) (rest : List IoEvent),
      e.readRet ≤ 0 → serial_to_tcp_run s (e :: rest) = (s, .finished)) ∧
    (∀ (v : Bool) (s : TcpThreadState) (e : IoEvent) (rest : List IoEvent),
      0 < e.readRet → e.writeRet ≠ e.readRet →
        (tcp_to_serial_run v s (e :: rest)).2 = .fatal ∧
        tcp_to_serial_run v s (e :: rest) = tcp_to_serial_run v s [e]) ∧
    (∀ (s : SerialThreadState) (e : IoEvent) (rest : List IoEvent),
      0 < e.readRet → e.writeRet ≠ e.readRet →
        (serial_to_tcp_run s (e :: rest)).2 = .fatal ∧
        serial_to_tcp_run s (e :: rest) = serial_to_tcp_run s [e]) := by
  refine ⟨?_, ?_, ?_, ?_⟩
  · intro v s e rest h
    simp [tcp_to_serial_run, h]
  · intro s e rest h
    simp [serial_to_tcp_run, h]
  · intro v s e rest hpos hw
    have h : ¬ e.readRet ≤ 0 := by omega
    constructor <;> simp [tcp_to_serial_run, h, hw]
  · intro s e rest hpos hw
    have h : ¬ e.readRet ≤ 0 := by omega
    constructor <;> simp [serial_to_tcp_run, h, hw]

/-- Witness for C4: each of the four parts applied to concrete events — an
end-of-stream read (`readRet = 0`), an errored read (`readRet = -1`), and a
short write (2 bytes requested, 1 written) in both directions. -/
theorem claim_C4_witness :
    tcp_to_serial_run false (tcpInit fun _ => 0) [⟨0, [], 0⟩, ⟨2, [1, 2], 2⟩] =
      (tcpInit fun _ => 0, .finished) ∧
    serial_to_tcp_run (serialInit fun _ => 0) [⟨-1, [], 0⟩] =
      (serialInit fun _ => 0, .finished) ∧
    (tcp_to_serial_run false (tcpInit fun _ => 0)
      [⟨2, [1, 2], 1⟩, ⟨2, [3, 4], 2⟩]).2 = .fatal ∧
    (serial_to_tcp_run (serialInit fun _ => 0) [⟨2, [1, 2], 1⟩, ⟨2, [3, 4], 2⟩]).2 = .fatal := by
  refine ⟨?_, ?_, ?_, ?_⟩
  · exact claim_C4_eof_ends_short_write_fatal.1 false _ _ _ (by norm_num)
  · exact claim_C4_eof_ends_short_write_fatal.2.1 _ _ _ (by norm_num)
  · exact (claim_C4_eof_ends_short_write_fatal.2.2.1 false _ _ _
      (by norm_num) (by norm_num)).1
  · exact (claim_C4_eof_ends_short_write_fatal.2.2.2 _ _ _
      (by norm_num) (by norm_num)).1

/-! ### Shutdown ordering of `main` (lines 277-289 of src/forwarder.c) -/

/-- The actions `main` can take once forwarding starts.  The vocabulary
includes thread cancellation so that its absence from the actual trace is a
statement, not a typing accident. -/
inductive MainAct where
  | spawnTcpThread
  | spawnSerialThread
  | joinTcpThread
  | joinSerialThread
  | cancelTcpThread
  | cancelSerialThread
  | closeConnection
  | closeServer
  | closeSerial
  | returnZero
deriving DecidableEq, Repr

/-- The forwarding/teardown sequence of `main`, transliterated from the
source: `pthread_create` both threads, `pthread_join` both threads, close the
three descriptors, return 0 (diagnostic `printf`s omitted). -/
def main_teardown : List MainAct :=
  [.spawnTcpThread, .spawnSerialThread, .joinTcpThread, .joinSerialThread,
   .closeConnection, .closeServer, .closeSerial, .returnZero]

/-- The engine's `forward` operation: run both directions to their own ends
and return only when both have terminated (`pthread_join` on both threads);
its result carries both directions' final states and outcomes. -/
def forward (v : Bool) (buf0 sbuf0 : Nat → Nat)
    (tcpEvents serialEvents : List IoEvent) :
    (TcpThreadState × ThreadOutcome) × (SerialThreadState × ThreadOutcome) :=
  (tcp_to_serial_run v (tcpInit buf0) tcpEvents,
   serial_to_tcp_run (serialInit sbuf0) serialEvents)

/-- C5: `forward` returns only after both directions have terminated —
`main` joins both threads, in `main_teardown` every descriptor close and the
final return come after both joins — and neither direction is cancelled or
interrupted because of the other: no cancellation action occurs, and each
direction's final state and outcome depend only on its own event trace,
unchanged whatever trace (however short or fatal) the other direction runs. -/
theorem claim_C5_forward_joins_both :
    (main_teardown.indexOf .joinTcpThread < main_teardown.indexOf .closeConnection ∧
     main_teardown.indexOf .joinSerialThread < main_teardown.indexOf .closeConnection ∧
     main_teardown.indexOf .closeConnection < main_teardown.indexOf .returnZero ∧
     MainAct.joinTcpThread ∈ main_teardown ∧
     MainAct.joinSerialThread ∈ main_teardown ∧
     MainAct.cancelTcpThread ∉ main_teardown ∧
     MainAct.cancelSerialThread ∉ main_teardown) ∧
    (∀ (v : Bool) (buf0 sbuf0 : Nat → Nat) (te se se' : List IoEvent),
      (forward v buf0 sbuf0 te se).1 = (forward v buf0 sbuf0 te se').1) ∧
    (∀ (v : Bool) (buf0 sbuf0 : Nat → Nat) (te te' se : List IoEvent),
      (forward v buf0 sbuf0 te se).2 = (forward v buf0 sbuf0 te' se).2) := by
  refine ⟨by decide, ?_, ?_⟩
  · intro v buf0 sbuf0 te se se'
    rfl
  · intro v buf0 sbuf0 te te' se
    rfl

/-! ### The key-event encoder client (src/unnamed/part_000)

The client's main loop reads `struct input_event` records from the input
device and, for key events, encodes a 2-byte message
`{PRESS_IDENTIFIER | RELEASE_IDENTIFIER, code}` and sends it over the TCP
socket.  The per-record encoding decision and the loop are embedded below. -/

def PRESS_IDENTIFIER : Nat := 254

def RELEASE_IDENTIFIER : Nat := 255

/-- `EV_KEY` from linux/input-event-codes.h. -/
def EV_KEY : Nat := 1

/-- The fields of `struct input_event` the client reads: `type` and `code`
are `__u16`, `value` is `__s32`. -/
structure input_event where
  type : Nat
  code : Nat
  value : Int
deriving DecidableEq, Repr

/-- The encoding decision of the client's loop body for one record `ev`:
`some [b0, b1]` when a 2-byte message is sent, `none` when the record is
dropped (non-key event, auto-repeat `value == 2`, unknown value, or
`code > 255`).  Mirrors lines 119-151 of the source: the sentinel byte is
chosen from `ev.value`, auto-repeat and unknown values `continue`, then a
code over 255 is skipped with a warning, else `(char)code` is sent after the
sentinel.  Bytes are the unsigned values that appear on the wire. -/
def encode_key_event (ev : input_event) : Option (List Nat) :=
  if ev.type = EV_KEY then
    let code := ev.code
    let b0? : Option Nat :=
      if ev.value = 1 then some PRESS_IDENTIFIER
      else if ev.value = 0 then some RELEASE_IDENTIFIER
      else none
    match b0? with
    | none => none
    | some b0 => if code > 255 then none else some [b0, code % 256]
  else none

/-- One client loop iteration's system-call results: the `read` return value,
the record it delivered (meaningful when the full record arrived), and the
`send` return value (meaningful only if a send is attempted). -/
structure ClientEvent where
  readRet : Int
  readEv : input_event
  sendRet : Int
deriving DecidableEq, Repr

/-- How the client's `while (1)` loop left off after consuming a trace. -/
inductive ClientOutcome where
  /-- Trace exhausted: the loop is still running (blocked in `read`), holding
  the current contents of `ev`. -/
  | running (ev : input_event)
  /-- `read` returned a negative result: `perror` + `break`. -/
  | brokeRead (ev : input_event)
  /-- `send` transferred other than 2 bytes: `perror` + `break`. -/
  | brokeSend (ev : input_event)
deriving DecidableEq, Repr

/-- The client's main loop (lines 109-153 of the source).  `ev` is the stack
`struct input_event`, persisting across iterations: only the `break` on a
negative `read` result exits the loop — a `read` returning 0 (end-of-file)
leaves `ev` unchanged and goes round again. -/
def client_run (ev : input_event) : List ClientEvent → ClientOutcome
  | [] => .running ev
  | e :: rest =>
    if e.readRet < 0 then .brokeRead ev
    else
      let ev2 := if 0 < e.readRet then e.readEv else ev
      match encode_key_event ev2 with
      | some _ => if e.sendRet ≠ 2 then .brokeSend ev2 else client_run ev2 rest
      | none => client_run ev2 rest

/-- C7: per key-event record — value 1 encodes as the 2-byte press message
`[PRESS_IDENTIFIER, code]`, value 0 as `[RELEASE_IDENTIFIER, code]` (when the
code fits a byte), value 2 (auto-repeat) and any other value are dropped, a
key code above 255 is dropped rather than truncated, and every message
produced is exactly 2 bytes. -/
theorem claim_C7_key_event_encoding (ev : input_event) (hk : ev.type = EV_KEY) :
    (ev.value = 1 → ev.code ≤ 255 →
      encode_key_event ev = some [PRESS_IDENTIFIER, ev.code]) ∧
    (ev.value = 0 → ev.code ≤ 255 →
      encode_key_event ev = some [RELEASE_IDENTIFIER, ev.code]) ∧
    (ev.value = 2 → encode_key_event ev = none) ∧
    (ev.value ≠ 0 → ev.value ≠ 1 → encode_key_event ev = none) ∧
    (ev.code > 255 → encode_key_event ev = none) ∧
    (∀ msg, encode_key_event ev = some msg → msg.length = 2) := by
  refine ⟨?_, ?_, ?_, ?_, ?_, ?_⟩
  · intro h1 h2
    have : ¬ ev.code > 255 := by omega
    simp [encode_key_event, hk, h1, this, Nat.mod_eq_of_lt (by omega : ev.code < 256)]
  · intro h0 h2
    have : ¬ ev.code > 255 := by omega
    simp [encode_key_event, hk, h0, this, Nat.mod_eq_of_lt (by omega : ev.code < 256)]
  · intro h2
    simp [encode_key_event, hk, h2]
  · intro h0 h1
    simp [encode_key_event, hk, h0, h1]
  · intro hc
    by_cases h1 : ev.value = 1 <;> by_cases h0 : ev.value = 0 <;>
      simp [encode_key_event, hk, h1, h0, hc]
  · intro msg hmsg
    by_cases h1 : ev.value = 1 <;> by_cases h0 : ev.value = 0 <;>
      by_cases hc : ev.code > 255 <;>
      simp [encode_key_event, hk, h1, h0, hc] at hmsg <;> simp [← hmsg]

/-- Witness for C7: the theorem applied to the key-down record for code 30
(and, within the conjunction, evaluated consequences for press encoding and
message length). -/
theorem claim_C7_witness :
    (⟨EV_KEY, 30, 1⟩ : input_event).type = EV_KEY ∧
    encode_key_event ⟨EV_KEY, 30, 1⟩ = some [PRESS_IDENTIFIER, 30] ∧
    ∀ msg, encode_key_event ⟨EV_KEY, 30, 1⟩ = some msg → msg.length = 2 :=
  ⟨rfl, (claim_C7_key_event_encoding ⟨EV_KEY, 30, 1⟩ rfl).1 rfl (by norm_num),
   (claim_C7_key_event_encoding ⟨EV_KEY, 30, 1⟩ rfl).2.2.2.2.2⟩

/-- C10: a `read` returning 0 (end-of-file) does not terminate the client's
main loop.  The loop breaks only on a negative `read` result or a failed
`send`: on a trace whose reads are all non-negative and whose sends all
succeed the loop is still running at the end, and in particular on
persistently end-of-file reads (`readRet = 0` forever) it spins indefinitely,
never closing down, whatever record is pending. -/
theorem claim_C10_eof_does_not_terminate :
    (∀ (ev0 : input_event) (events : List ClientEvent),
      (∀ e ∈ events, 0 ≤ e.readRet) → (∀ e ∈ events, e.sendRet = 2) →
      ∃ ev1, client_run ev0 events = .running ev1) ∧
    (∀ (n : Nat) (ev0 : input_event) (d : input_event),
      client_run ev0 (List.replicate n ⟨0, d, 2⟩) = .running ev0) := by
  constructor
  · intro ev0 events
    induction events generalizing ev0 with
    | nil => exact fun _ _ => ⟨ev0, rfl⟩
    | cons e rest ih =>
      intro hr hs
      have hr0 : 0 ≤ e.readRet := hr e (by simp)
      have hrneg : ¬ e.readRet < 0 := by omega
      have hs0 : e.sendRet = 2 := hs e (by simp)
      have hrest1 : ∀ x ∈ rest, 0 ≤ x.readRet := fun x hx => hr x (by simp [hx])
      have hrest2 : ∀ x ∈ rest, x.sendRet = 2 := fun x hx => hs x (by simp [hx])
      simp only [client_run, hrneg, if_neg (by omega : ¬ e.readRet < 0)]
      rcases hcase : encode_key_event (if 0 < e.readRet then e.readEv else ev0) with _ | m
      · simpa [hcase] using ih _ hrest1 hrest2
      · simpa [hcase, hs0] using ih _ hrest1 hrest2
  · intro n ev0 d
    induction n with
    | zero => rfl
    | succ k ih =>
      simp only [List.replicate_succ, client_run]
      norm_num
      rcases hcase : encode_key_event ev0 with _ | m
      · simpa [hcase] using ih
      · simpa [hcase] using ih

/-- Witness for C10: a concrete run — one successful key read followed by an
end-of-file read — is still running; and three consecutive end-of-file reads
leave the loop running with the pending record unchanged. -/
theorem claim_C10_witness :
    (∃ ev1, client_run ⟨0, 0, 0⟩
      [⟨24, ⟨EV_KEY, 30, 1⟩, 2⟩, ⟨0, ⟨0, 0, 0⟩, 2⟩] = .running ev1) ∧
    client_run ⟨EV_KEY, 30, 1⟩ (List.replicate 3 ⟨0, ⟨0, 0, 0⟩, 2⟩) =
      .running ⟨EV_KEY, 30, 1⟩ :=
  ⟨claim_C10_eof_does_not_terminate.1 ⟨0, 0, 0⟩
      [⟨24, ⟨EV_KEY, 30, 1⟩, 2⟩, ⟨0, ⟨0, 0, 0⟩, 2⟩] (by decide) (by decide),
   claim_C10_eof_does_not_terminate.2 3 ⟨EV_KEY, 30, 1⟩ ⟨0, 0, 0⟩⟩

end Forwarder
